import Mathlib

/-!
Shallow embedding of `generate_jedi_catalog.py` (James's EVE Dimming Index
catalog pipeline).  Times are rationals measured in minutes; irradiance values
are `Option ℚ` with `none` playing the role of pandas `NaN`.  The six external
numeric routines (pre-flare baseline estimation, peak-match-subtract
correction, light-curve fitting, depth/slope/duration extraction) are out of
scope for the pipeline itself and are modelled as an `Oracles` record of
opaque-to-the-pipeline total functions, exactly as the source calls them.
Python-level failures that the orchestrator can hit (reading a local variable
that was never assigned, indexing past the end of the flare list) are modelled
with an explicit error type threaded through `Except`.
-/

namespace JEDI

/-- A light-curve sample: timestamp (whole minutes) and irradiance value
(`none` models a pandas `NaN`). -/
abbrev Sample : Type := ℤ × Option ℚ

/-- A time-indexed light curve, mirroring one pandas column of `eve_lines`. -/
abbrev Series : Type := List Sample

/-- A multi-channel irradiance table: ordered association of column label to
series, mirroring the `eve_lines` / `eve_lines_event` DataFrames. -/
abbrev EveLines : Type := List (String × Series)

/-- One GOES flare event (start time, peak time, class), as loaded from
`goes_flare_events` at lines 118-123 of the source. -/
structure FlareEvent where
  startTime : ℤ
  peakTime : ℤ
  cls : String
deriving DecidableEq

instance : Inhabited FlareEvent := ⟨⟨0, 0, ""⟩⟩

/-- The keyword arguments of `generate_jedi_catalog` (source lines 30-35);
`output_path` only influences where plots/CSV land and is not modelled. -/
structure Config where
  thresholdTimePriorFlareMinutes : ℤ
  dimmingWindowRelativeToFlareMinutesLeft : ℤ
  dimmingWindowRelativeToFlareMinutesRight : ℤ
  thresholdMinimumDimmingWindowMinutes : ℤ
  verbose : Bool
deriving DecidableEq

/-- The six external numeric routines imported at the top of the source file.
Each is a total function; per the spec they may return `none` ("no signal") in
any scalar slot.  `automatic_fit_coronal_dimming_light_curve` also receives a
constant per-sample uncertainty (source line 298) which, being a constant
function of the series length, is folded into the oracle. -/
structure Oracles where
  determine_preflare_irradiance : Series → ℤ → Option ℚ
  light_curve_peak_match_subtract : Series → Series → ℤ → Series × Option ℚ × Option ℚ
  automatic_fit_coronal_dimming_light_curve : Series → Series × Option ℚ × Option ℚ
  determine_dimming_depth : Series → Option ℚ × Option ℤ
  determine_dimming_slope : Series → ℤ → Option ℤ → Option ℚ × Option ℚ × Option ℚ
  determine_dimming_duration : Series → ℤ → Option ℚ × Option ℤ × Option ℤ

/-- `True` iff a series is entirely missing, mirroring
`df.isnull().all().all()` (vacuously true on an empty slice, as in pandas). -/
def allNull (s : Series) : Bool :=
  s.all fun p => p.2.isNone

/-- Label-based slice `df[a:b]` of one column; pandas label slicing is
inclusive at both ends. -/
def sliceSeries (a b : ℤ) (s : Series) : Series :=
  s.filter fun p => decide (a ≤ p.1) && decide (p.1 ≤ b)

/-- Label-based slice of the whole table. -/
def sliceLines (a b : ℤ) (eve : EveLines) : EveLines :=
  eve.map fun c => (c.1, sliceSeries a b c.2)

/-- First-match association lookup (pandas column access). -/
def getCol {α : Type} : List (String × α) → String → Option α
  | [], _ => none
  | (k, v) :: rest, c => if k = c then some v else getCol rest c

/-- Column assignment `df[c] = s`: replace the column if present, else append
it on the right (how pandas adds a new column). -/
def setCol : EveLines → String → Series → EveLines
  | [], c, s => [(c, s)]
  | (k, v) :: rest, c, s =>
      if k = c then (c, s) :: rest else (k, v) :: setCol rest c s

/-- The derived-pair column label built at source line 152:
`' by '.join(ion_tuples[i])`. -/
def pairLabel (a b : String) : String :=
  a ++ " by " ++ b

/-- `itertools.permutations(columns, 2)` (source line 151): all ordered pairs
of distinct channel labels, first component outermost.  (EVE channel labels —
wavelength strings — are pairwise distinct, so positional and value-based
permutations coincide.) -/
def ionTuples (cols : List String) : List (String × String) :=
  cols.flatMap fun a => (cols.filter fun b => !(b == a)).map fun b => (a, b)

/-- One JEDI catalog row.  The six fixed leading fields are the ones created
at source lines 129-134; every other column (fixed schema of per-channel and
per-pair metric columns, lines 135-169) lives in `metrics`, an association
list where an absent key — and a key explicitly set to `none` — both mean NaN.
Column assignments prepend, so the newest value shadows older ones. -/
structure JediRow where
  goesFlareStartTime : Option ℤ
  goesFlarePeakTime : Option ℤ
  goesFlareClass : Option String
  preFlareStartTime : Option ℤ
  preFlareEndTime : Option ℤ
  flareInterrupt : Option Bool
  metrics : List (String × Option ℚ)
deriving DecidableEq

/-- `jedi_row[c] = v` for a metric column. -/
def JediRow.set (row : JediRow) (c : String) (v : Option ℚ) : JediRow :=
  { row with metrics := (c, v) :: row.metrics }

/-- Read a metric column of the row; NaN (missing) is `none`. -/
def JediRow.metric (row : JediRow) (c : String) : Option ℚ :=
  (getCol row.metrics c).getD none

/-- Assign a list of values to a list of metric columns
(`jedi_row[cols] = values`, source line 227). -/
def setMetrics (row : JediRow) (cols : List String) (vals : List (Option ℚ)) :
    JediRow :=
  (cols.zip vals).foldl (fun r cv => r.set cv.1 cv.2) row

/-- The blank row created at source lines 129-169: all fields NaN. -/
def initRow : JediRow :=
  { goesFlareStartTime := none
    goesFlarePeakTime := none
    goesFlareClass := none
    preFlareStartTime := none
    preFlareEndTime := none
    flareInterrupt := none
    metrics := [] }

/-- One line of the on-disk CSV.  The flare index on a data line is a ghost
annotation recording which loop iteration appended the line. -/
inductive CsvLine where
  | header : CsvLine
  | data : ℕ → JediRow → CsvLine
deriving DecidableEq

/-- Ghost index of a CSV line (`none` for the header line). -/
def lineIdx : CsvLine → Option ℕ
  | .header => none
  | .data i _ => some i

/-- Read a metric column out of a CSV data line. -/
def lineMetric (l : CsvLine) (c : String) : Option ℚ :=
  match l with
  | .header => none
  | .data _ r => r.metric c

/-- Python-level failures the orchestrator itself can raise:
`unboundLocal n` models `UnboundLocalError` on reading local `n` before any
assignment; `indexOutOfRange` models `IndexError` on the flare list;
`typeErr` models the `TypeError` of `DataFrame - None`. -/
inductive PipeError where
  | unboundLocal : String → PipeError
  | indexOutOfRange : PipeError
  | typeErr : PipeError
deriving DecidableEq

/-- The mutable locals of `generate_jedi_catalog` that survive from one loop
iteration to the next: the held-over baseline (`preflare_irradiance`, line
183, initialised to Python `None`), the baseline window bounds
(`preflare_window_start/_end`, *unbound* until the first recomputation —
modelled as `none`), the reused `jedi_row` DataFrame, and the CSV written so
far. -/
structure LoopState where
  preflareIrradiance : Option (List (Option ℚ))
  preflareWindowStart : Option ℤ
  preflareWindowEnd : Option ℤ
  row : JediRow
  lines : List CsvLine
deriving DecidableEq

/-- Source lines 196-198: store the GOES flare metadata into the row. -/
def fillMetadata (fi : FlareEvent) (row : JediRow) : JediRow :=
  { row with
    goesFlareStartTime := some fi.startTime
    goesFlarePeakTime := some fi.peakTime
    goesFlareClass := some fi.cls }

/-- The per-channel baseline column labels
(`'Pre-Flare Irradiance' in col`, source line 226), in table column order. -/
def preflareColumns (eve : EveLines) : List String :=
  eve.map fun c => c.1 ++ " Pre-Flare Irradiance [W/m2]"

/-- The fresh baseline computed in the recompute branch (source lines
206-218): slice each channel to the window and call the external estimator. -/
def freshIrr (cfg : Config) (orc : Oracles) (eve : EveLines) (fi : FlareEvent) :
    List (Option ℚ) :=
  (sliceLines (fi.peakTime - cfg.thresholdTimePriorFlareMinutes) fi.peakTime eve).map
    fun c => orc.determine_preflare_irradiance c.2 fi.startTime

/-- Source lines 202-222: the baseline-resolution branch.  If the gap since
the previous flare's peak exceeds the threshold, recompute the baseline and
its window bounds; otherwise keep the held-over state — but note that the
reuse branch unconditionally calls `logger.info` (line 220), and `logger` is
only ever assigned under `if verbose:` (line 72), so with `verbose = False`
the reuse branch raises `UnboundLocalError`. -/
def baselineStep (cfg : Config) (orc : Oracles) (eve : EveLines)
    (fi fprev : FlareEvent) (st : LoopState) : Except PipeError LoopState :=
  if fi.peakTime - fprev.peakTime > cfg.thresholdTimePriorFlareMinutes then
    .ok { st with
          preflareIrradiance := some (freshIrr cfg orc eve fi)
          preflareWindowStart := some (fi.peakTime - cfg.thresholdTimePriorFlareMinutes)
          preflareWindowEnd := some fi.peakTime }
  else
    if cfg.verbose then .ok st else .error (.unboundLocal "logger")

/-- Source lines 224-227: copy the baseline window bounds and the per-channel
baseline values into the row.  Reading `preflare_window_start` before any
recomputation has ever assigned it raises `UnboundLocalError` (line 224). -/
def applyBaselineToRow (eve : EveLines) (st : LoopState) :
    Except PipeError LoopState :=
  match st.preflareWindowStart, st.preflareWindowEnd with
  | some ws, some we =>
      let row1 := { st.row with
                    preFlareStartTime := some ws
                    preFlareEndTime := some we }
      let row2 :=
        match st.preflareIrradiance with
        | some irr => setMetrics row1 (preflareColumns eve) irr
        | none => setMetrics row1 (preflareColumns eve) (eve.map fun _ => none)
      .ok { st with row := row2 }
  | _, _ => .error (.unboundLocal "preflare_window_start")

/-- Source line 233: `bracket_time_left = peak_time - left_offset * u.minute`.
Note the subtraction. -/
def bracketTimeLeft (peak leftOffsetMinutes : ℤ) : ℤ :=
  peak - leftOffsetMinutes

/-- The left window bound as the docstring (source lines 46-48) describes it:
the offset is *relative* to the peak, negative values meaning minutes prior to
the peak — i.e. `peak + offset`.  Stated here, clearly named, only to be
compared against `bracketTimeLeft`, which is what the code computes. -/
def bracketTimeLeftSpec (peak leftOffsetMinutes : ℤ) : ℤ :=
  peak + leftOffsetMinutes

/-- Source lines 234-236: the right window bound is the earlier of the next
flare's peak and `peak + right_offset`. -/
def bracketTimeRight (peak rightOffsetMinutes nextPeak : ℤ) : ℤ :=
  min nextPeak (peak + rightOffsetMinutes)

/-- Elementwise percent conversion of one cell (source line 267):
`(df - baseline) / baseline * 100`; NaN in either operand yields NaN. -/
def percentValue (v b : Option ℚ) : Option ℚ :=
  match v, b with
  | some x, some y => some ((x - y) / y * 100)
  | _, _ => none

/-- Percent conversion of one column against its baseline scalar. -/
def percentSeries (b : Option ℚ) (s : Series) : Series :=
  s.map fun p => (p.1, percentValue p.2 b)

/-- Percent conversion of the whole windowed table against the per-channel
baseline list (source line 267; the list is positionally aligned with the
table's columns, as in the pandas broadcast). -/
def percentLines (eve : EveLines) (base : List (Option ℚ)) : EveLines :=
  List.zipWith (fun c b => (c.1, percentSeries b c.2)) eve base

/-- One iteration of the pairwise correction loop (source lines 272-295) on
the accumulator (current event table, current row).  Returns the updated
accumulator and a flag recording whether the pair was skipped because either
channel's windowed series was entirely missing (line 278). -/
def stepPair (orc : Oracles) (peak : ℤ) (p : String × String)
    (acc : EveLines × JediRow) : (EveLines × JediRow) × Bool :=
  let sa := (getCol acc.1 p.1).getD []
  let sb := (getCol acc.1 p.2).getD []
  if allNull sa || allNull sb then (acc, true)
  else
    let c := orc.light_curve_peak_match_subtract sa sb peak
    let eve2 := setCol acc.1 (pairLabel p.1 p.2) c.1
    let row2 := (acc.2.set (pairLabel p.1 p.2 ++ " Correction Time Shift [s]") c.2.1).set
      (pairLabel p.1 p.2 ++ " Correction Scale Factor") c.2.2
    ((eve2, row2), false)

/-- The whole pairwise correction stage: fold over `ion_tuples`. -/
def correctionStage (orc : Oracles) (peak : ℤ) (pairs : List (String × String))
    (acc : EveLines × JediRow) : EveLines × JediRow :=
  match pairs with
  | [] => acc
  | p :: rest => correctionStage orc peak rest (stepPair orc peak p acc).1

/-- One iteration of the fitting loop (source lines 303-326): skip an
all-missing column, otherwise fit, replace the working series, and record the
fit shape parameter and score. -/
def stepFit (orc : Oracles) (acc : EveLines × JediRow) (col : String) :
    EveLines × JediRow :=
  let s := (getCol acc.1 col).getD []
  if allNull s then acc
  else
    let f := orc.automatic_fit_coronal_dimming_light_curve s
    (setCol acc.1 col f.1,
      (acc.2.set (col ++ " Fitting Gamma") f.2.1).set (col ++ " Fitting Score") f.2.2)

/-- The fitting stage: iterate over the current columns of the event table
(original channels plus the derived-pair columns added by the correction
stage). -/
def fittingStage (orc : Oracles) (eve : EveLines) (row : JediRow) :
    EveLines × JediRow :=
  (eve.map Prod.fst).foldl (stepFit orc) (eve, row)

/-- Record of the parameterization calls made for one column, in order, with
the time bounds each external routine was invoked with (ghost instrumentation
of source lines 343-382). -/
inductive StageCall where
  | depthCall : StageCall
  | slopeCall : ℤ → Option ℤ → StageCall
  | durationCall : ℤ → StageCall
deriving DecidableEq

/-- Parameterization of one column (source lines 337-386): depth first, then
slope over `[peak_time, depth_time]`, then duration with
`earliest_allowed_time = slope_start_time`; every output and the slope bounds
are recorded in the row. -/
def paramColumn (orc : Oracles) (peak : ℤ) (col : String) (s : Series)
    (row : JediRow) : JediRow × List StageCall :=
  let d := orc.determine_dimming_depth s
  let row1 := (row.set (col ++ " Depth [%]") d.1).set (col ++ " Depth Time")
    (d.2.map fun t => (t : ℚ))
  let slopeStartTime := peak
  let slopeEndTime := d.2
  let sl := orc.determine_dimming_slope s slopeStartTime slopeEndTime
  let row2 := ((((row1.set (col ++ " Slope Min [%/s]") sl.1).set
      (col ++ " Slope Max [%/s]") sl.2.1).set
      (col ++ " Slope Mean [%/s]") sl.2.2).set
      (col ++ " Slope Start Time") (some (slopeStartTime : ℚ))).set
      (col ++ " Slope End Time") (slopeEndTime.map fun t => (t : ℚ))
  let du := orc.determine_dimming_duration s slopeStartTime
  let row3 := ((row2.set (col ++ " Duration [s]") du.1).set
      (col ++ " Duration Start Time") (du.2.1.map fun t => (t : ℚ))).set
      (col ++ " Duration End Time") (du.2.2.map fun t => (t : ℚ))
  (row3,
    [StageCall.depthCall, StageCall.slopeCall slopeStartTime slopeEndTime,
      StageCall.durationCall slopeStartTime])

/-- One iteration of the parameterization loop (source lines 329-332 handle
the all-missing skip). -/
def stepParam (orc : Oracles) (peak : ℤ) (eve : EveLines) (row : JediRow)
    (col : String) : JediRow :=
  let s := (getCol eve col).getD []
  if allNull s then row else (paramColumn orc peak col s row).1

/-- The parameterization stage over the current columns. -/
def paramStage (orc : Oracles) (peak : ℤ) (eve : EveLines) (row : JediRow) :
    JediRow :=
  (eve.map Prod.fst).foldl (stepParam orc peak eve) row

/-- Source lines 233-258 and 260-448, from window bracketing to the row
append: set the interrupt flag, either skip-and-append a NaN-metric row when
the window is too short, or run the correction / fitting / parameterization
stages and append the full row. -/
def afterBracket (cfg : Config) (orc : Oracles) (eve : EveLines)
    (fi fnext : FlareEvent) (i : ℕ) (st : LoopState) :
    Except PipeError LoopState :=
  let tl := bracketTimeLeft fi.peakTime cfg.dimmingWindowRelativeToFlareMinutesLeft
  let tr := bracketTimeRight fi.peakTime cfg.dimmingWindowRelativeToFlareMinutesRight
    fnext.peakTime
  let row0 := { st.row with flareInterrupt := some (decide (tr = fnext.peakTime)) }
  if tr - tl < cfg.thresholdMinimumDimmingWindowMinutes then
    .ok { st with row := row0, lines := st.lines ++ [CsvLine.data i row0] }
  else
    match st.preflareIrradiance with
    | none => .error .typeErr
    | some irr =>
      let eveEvent := percentLines (sliceLines tl tr eve) irr
      let cres := correctionStage orc fi.peakTime (ionTuples (eve.map Prod.fst))
        (eveEvent, row0)
      let fres := fittingStage orc cres.1 cres.2
      let row4 := paramStage orc fi.peakTime fres.1 fres.2
      .ok { st with row := row4, lines := st.lines ++ [CsvLine.data i row4] }

/-- One full iteration of the flare loop (source lines 186-448).  Index 0 is
skipped outright (lines 189-190); any flare-list access past the end raises
`IndexError`. -/
def processFlare (cfg : Config) (orc : Oracles) (eve : EveLines)
    (fs : List FlareEvent) (i : ℕ) (st : LoopState) :
    Except PipeError LoopState :=
  if i = 0 then .ok st
  else
    match fs[i]?, fs[i - 1]? with
    | some fi, some fprev =>
      let st1 := { st with row := fillMetadata fi st.row }
      match baselineStep cfg orc eve fi fprev st1 with
      | .error e => .error e
      | .ok st2 =>
        match applyBaselineToRow eve st2 with
        | .error e => .error e
        | .ok st3 =>
          match fs[i + 1]? with
          | none => .error .indexOutOfRange
          | some fnext => afterBracket cfg orc eve fi fnext i st3
    | _, _ => .error .indexOutOfRange

/-- Result of a run: the CSV lines that made it to disk and the error the run
aborted with, if any (the CSV survives an abort — appends are flushed per
flare). -/
structure RunOutcome where
  lines : List CsvLine
  err : Option PipeError
deriving DecidableEq

/-- The flare loop itself (`for flare_index in range(num_flares)`). -/
def runLoop (cfg : Config) (orc : Oracles) (eve : EveLines)
    (fs : List FlareEvent) : List ℕ → LoopState → RunOutcome
  | [], st => { lines := st.lines, err := none }
  | i :: rest, st =>
    match processFlare cfg orc eve fs i st with
    | .error e => { lines := st.lines, err := some e }
    | .ok st' => runLoop cfg orc eve fs rest st'

/-- The initial loop state: `preflare_irradiance = None` (line 183), the
window-bound locals unbound, a blank row, and the header already written
(line 172, `to_csv(..., header=True, mode='w')`). -/
def initState : LoopState :=
  { preflareIrradiance := none
    preflareWindowStart := none
    preflareWindowEnd := none
    row := initRow
    lines := [CsvLine.header] }

/-- The whole pipeline on given irradiance data and flare list. -/
def generate_jedi_catalog (cfg : Config) (orc : Oracles) (eve : EveLines)
    (fs : List FlareEvent) : RunOutcome :=
  runLoop cfg orc eve fs (List.range fs.length) initState

/-- Peak-time gap in minutes between flare `i` and flare `i - 1`
(source line 203). -/
def gapAt (fs : List FlareEvent) (i : ℕ) : ℤ :=
  (fs.getD i default).peakTime - (fs.getD (i - 1) default).peakTime

/-- Extract the state out of a successful iteration (used only to name
concrete successful states in witnesses). -/
def okState (e : Except PipeError LoopState) : LoopState :=
  match e with
  | .ok st => st
  | .error _ => initState

/-! ### Concrete fixtures used by witnesses and counterexamples -/

/-- A concrete instantiation of the six external routines (constant outputs;
the pipeline treats them as black boxes). -/
def oracleA : Oracles :=
  { determine_preflare_irradiance := fun _ _ => some 10
    light_curve_peak_match_subtract := fun a _ _ => (a, some 7, some 2)
    automatic_fit_coronal_dimming_light_curve := fun s => (s, some 1, some 1)
    determine_dimming_depth := fun _ => (some 5, some 1100)
    determine_dimming_slope := fun _ _ _ => (some 1, some 2, some 3)
    determine_dimming_duration := fun _ _ => (some 60, some 1100, some 1160) }

/-- The source's default thresholds with `verbose = False`. -/
def cfgQuiet : Config :=
  { thresholdTimePriorFlareMinutes := 240
    dimmingWindowRelativeToFlareMinutesLeft := 0
    dimmingWindowRelativeToFlareMinutesRight := 240
    thresholdMinimumDimmingWindowMinutes := 120
    verbose := false }

/-- The source's default thresholds with `verbose = True`. -/
def cfgVerbose : Config :=
  { cfgQuiet with verbose := true }

/-- Two flares, gap 1000 min (> threshold). -/
def fsTwo : List FlareEvent :=
  [⟨0, 0, "C1.0"⟩, ⟨995, 1000, "C5.0"⟩]

/-- Three flares, every gap 1000 min (> threshold). -/
def fsThreeFar : List FlareEvent :=
  [⟨0, 0, "C1.0"⟩, ⟨995, 1000, "C5.0"⟩, ⟨1995, 2000, "M1.0"⟩]

/-- Three flares; the first processed flare is only 100 min after flare 0
(below threshold, so its baseline is "reused"). -/
def fsThreeNear : List FlareEvent :=
  [⟨0, 0, "C1.0"⟩, ⟨95, 100, "C2.0"⟩, ⟨995, 1000, "M1.0"⟩]

/-- Four flares: flare 1 gets a full 240-min window, flare 2's window is cut
to 1 minute by flare 3 (short-window skip). -/
def fsFourSkip : List FlareEvent :=
  [⟨0, 0, "C1.0"⟩, ⟨995, 1000, "C5.0"⟩, ⟨1995, 2000, "M2.0"⟩, ⟨1996, 2001, "C9.9"⟩]

/-- Four flares: flare 2 is 100 min after flare 1, so flare 2 takes the
baseline-reuse branch; flare 3 is far. -/
def fsFourNear : List FlareEvent :=
  [⟨0, 0, "C1.0"⟩, ⟨995, 1000, "C5.0"⟩, ⟨1095, 1100, "M2.0"⟩, ⟨1995, 2000, "X1.0"⟩]

/-- A one-channel irradiance table with a single valid sample at t = 1100. -/
def eveOne : EveLines :=
  [("17.1", [(1100, some 10)])]

/-- A two-channel table with non-missing data in both channels. -/
def evePair : EveLines :=
  [("a", [(0, some 1)]), ("b", [(0, some 2)])]

/-- A one-channel table for the unit-normalization witness. -/
def eveB : EveLines :=
  [("a", [(0, some 2)])]

/-- A loop state in which a baseline recomputation has already happened in an
earlier iteration (held-over baseline present, window bounds assigned). -/
def stHeld : LoopState :=
  { preflareIrradiance := some [some 10]
    preflareWindowStart := some 0
    preflareWindowEnd := some 5
    row := initRow
    lines := [CsvLine.header] }

/-! ### Structural lemmas about rows and columns -/

theorem metric_set_same (row : JediRow) (c : String) (v : Option ℚ) :
    (row.set c v).metric c = v := by
  simp only [JediRow.set, JediRow.metric, getCol, eq_self_iff_true, if_true,
    Option.getD_some]

theorem metric_set_other (row : JediRow) {c c' : String} (h : c' ≠ c)
    (v : Option ℚ) : (row.set c' v).metric c = row.metric c := by
  simp only [JediRow.set, JediRow.metric, getCol, if_neg h]

theorem getCol_setCol_self (eve : EveLines) (c : String) (s : Series) :
    getCol (setCol eve c s) c = some s := by
  induction eve with
  | nil => simp [setCol, getCol]
  | cons kv rest ih =>
    by_cases h : kv.1 = c
    · simp [setCol, getCol, h]
    · simp [setCol, getCol, h, ih]

theorem string_append_right_ne (a : String) {b c : String} (h : b ≠ c) :
    a ++ b ≠ a ++ c := by
  intro he
  apply h
  have hd : (a ++ b).data = (a ++ c).data := by rw [he]
  rw [String.data_append, String.data_append] at hd
  exact String.ext (List.append_cancel_left hd)

theorem pairLabel_ne_left (a b : String) : pairLabel a b ≠ a := by
  intro h
  have hl := congrArg String.length h
  have h4 : (" by " : String).length = 4 := rfl
  rw [pairLabel, String.length_append, String.length_append, h4] at hl
  omega

theorem pairLabel_ne_right (a b : String) : pairLabel a b ≠ b := by
  intro h
  have hl := congrArg String.length h
  have h4 : (" by " : String).length = 4 := rfl
  rw [pairLabel, String.length_append, String.length_append, h4] at hl
  omega

/-! ### The stages do not touch the fixed row fields -/

theorem paramColumn_flareInterrupt (orc : Oracles) (peak : ℤ) (col : String)
    (s : Series) (row : JediRow) :
    ((paramColumn orc peak col s row).1).flareInterrupt = row.flareInterrupt := by
  simp only [paramColumn, JediRow.set]

theorem stepParam_flareInterrupt (orc : Oracles) (peak : ℤ) (eve : EveLines)
    (row : JediRow) (col : String) :
    (stepParam orc peak eve row col).flareInterrupt = row.flareInterrupt := by
  simp only [stepParam]
  split
  · rfl
  · exact paramColumn_flareInterrupt orc peak col _ row

theorem paramStage_flareInterrupt (orc : Oracles) (peak : ℤ) (eve : EveLines) :
    ∀ (cols : List String) (row : JediRow),
      (cols.foldl (stepParam orc peak eve) row).flareInterrupt = row.flareInterrupt := by
  intro cols
  induction cols with
  | nil => intro row; rfl
  | cons c cs ih =>
    intro row
    rw [List.foldl_cons, ih, stepParam_flareInterrupt]

theorem stepFit_flareInterrupt (orc : Oracles) (acc : EveLines × JediRow)
    (col : String) :
    ((stepFit orc acc col).2).flareInterrupt = acc.2.flareInterrupt := by
  simp only [stepFit]
  split
  · rfl
  · rfl

theorem fittingFold_flareInterrupt (orc : Oracles) :
    ∀ (cols : List String) (acc : EveLines × JediRow),
      ((cols.foldl (stepFit orc) acc).2).flareInterrupt = acc.2.flareInterrupt := by
  intro cols
  induction cols with
  | nil => intro acc; rfl
  | cons c cs ih =>
    intro acc
    rw [List.foldl_cons, ih, stepFit_flareInterrupt]

theorem stepPair_flareInterrupt (orc : Oracles) (peak : ℤ) (p : String × String)
    (acc : EveLines × JediRow) :
    (((stepPair orc peak p acc).1).2).flareInterrupt = acc.2.flareInterrupt := by
  simp only [stepPair]
  split
  · rfl
  · rfl

theorem correctionStage_flareInterrupt (orc : Oracles) (peak : ℤ) :
    ∀ (pairs : List (String × String)) (acc : EveLines × JediRow),
      ((correctionStage orc peak pairs acc).2).flareInterrupt = acc.2.flareInterrupt := by
  intro pairs
  induction pairs with
  | nil => intro acc; rfl
  | cons p rest ih =>
    intro acc
    rw [correctionStage, ih, stepPair_flareInterrupt]

/-! ### Shape lemmas for the orchestration steps -/

theorem baselineStep_recompute (cfg : Config) (orc : Oracles) (eve : EveLines)
    (fi fprev : FlareEvent) (st : LoopState)
    (h : fi.peakTime - fprev.peakTime > cfg.thresholdTimePriorFlareMinutes) :
    baselineStep cfg orc eve fi fprev st = .ok { st with
      preflareIrradiance := some (freshIrr cfg orc eve fi)
      preflareWindowStart := some (fi.peakTime - cfg.thresholdTimePriorFlareMinutes)
      preflareWindowEnd := some fi.peakTime } := by
  unfold baselineStep
  rw [if_pos h]

theorem baselineStep_reuse (cfg : Config) (orc : Oracles) (eve : EveLines)
    (fi fprev : FlareEvent) (st : LoopState)
    (h : ¬ (fi.peakTime - fprev.peakTime > cfg.thresholdTimePriorFlareMinutes)) :
    baselineStep cfg orc eve fi fprev st =
      if cfg.verbose then .ok st else .error (.unboundLocal "logger") := by
  unfold baselineStep
  rw [if_neg h]

theorem applyBaselineToRow_unbound (eve : EveLines) (st : LoopState)
    (h : st.preflareWindowStart = none) :
    applyBaselineToRow eve st = .error (.unboundLocal "preflare_window_start") := by
  unfold applyBaselineToRow
  rw [h]

theorem applyBaselineToRow_ok_shape (eve : EveLines) (st st' : LoopState)
    (h : applyBaselineToRow eve st = .ok st') :
    ∃ row2, st' = { st with row := row2 } := by
  unfold applyBaselineToRow at h
  split at h
  · simp only [Except.ok.injEq] at h
    exact ⟨_, h.symm⟩
  · simp at h

theorem afterBracket_ok_of_some (cfg : Config) (orc : Oracles) (eve : EveLines)
    (fi fnext : FlareEvent) (i : ℕ) (st : LoopState) (irr : List (Option ℚ))
    (hirr : st.preflareIrradiance = some irr) :
    ∃ r st', afterBracket cfg orc eve fi fnext i st = .ok st' ∧
      st' = { st with row := r, lines := st.lines ++ [CsvLine.data i r] } := by
  simp only [afterBracket, hirr]
  by_cases hc : bracketTimeRight fi.peakTime
      cfg.dimmingWindowRelativeToFlareMinutesRight fnext.peakTime -
      bracketTimeLeft fi.peakTime cfg.dimmingWindowRelativeToFlareMinutesLeft <
      cfg.thresholdMinimumDimmingWindowMinutes
  · rw [if_pos hc]
    exact ⟨_, _, rfl, rfl⟩
  · rw [if_neg hc]
    exact ⟨_, _, rfl, rfl⟩

theorem afterBracket_spec (cfg : Config) (orc : Oracles) (eve : EveLines)
    (fi fnext : FlareEvent) (i : ℕ) (st st' : LoopState)
    (h : afterBracket cfg orc eve fi fnext i st = .ok st') :
    ∃ r, st' = { st with row := r, lines := st.lines ++ [CsvLine.data i r] } ∧
      r.flareInterrupt = some (decide (bracketTimeRight fi.peakTime
        cfg.dimmingWindowRelativeToFlareMinutesRight fnext.peakTime = fnext.peakTime)) := by
  simp only [afterBracket] at h
  split at h
  · simp only [Except.ok.injEq] at h
    exact ⟨_, h.symm, rfl⟩
  · split at h
    · simp at h
    · simp only [Except.ok.injEq] at h
      refine ⟨_, h.symm, ?_⟩
      rw [paramStage, fittingStage]
      rw [paramStage_flareInterrupt, fittingFold_flareInterrupt,
        correctionStage_flareInterrupt]

theorem applyBaselineToRow_ok_ex (eve : EveLines) (st : LoopState) (ws we : ℤ)
    (h1 : st.preflareWindowStart = some ws) (h2 : st.preflareWindowEnd = some we) :
    ∃ row2, applyBaselineToRow eve st = .ok { st with row := row2 } := by
  unfold applyBaselineToRow
  rw [h1, h2]
  exact ⟨_, rfl⟩

/-! ### One loop iteration, resolved by branch -/

theorem processFlare_recompute_ok (cfg : Config) (orc : Oracles) (eve : EveLines)
    (fs : List FlareEvent) (i : ℕ) (st : LoopState) (fi fprev fnext : FlareEvent)
    (hi : i ≠ 0) (hfi : fs[i]? = some fi) (hfp : fs[i - 1]? = some fprev)
    (hfn : fs[i + 1]? = some fnext)
    (hgap : fi.peakTime - fprev.peakTime > cfg.thresholdTimePriorFlareMinutes) :
    ∃ r st', processFlare cfg orc eve fs i st = .ok st' ∧
      st'.lines = st.lines ++ [CsvLine.data i r] := by
  have hb := baselineStep_recompute cfg orc eve fi fprev
    { st with row := fillMetadata fi st.row } hgap
  obtain ⟨row2, ha⟩ := applyBaselineToRow_ok_ex eve
    { st with
      row := fillMetadata fi st.row
      preflareIrradiance := some (freshIrr cfg orc eve fi)
      preflareWindowStart := some (fi.peakTime - cfg.thresholdTimePriorFlareMinutes)
      preflareWindowEnd := some fi.peakTime }
    (fi.peakTime - cfg.thresholdTimePriorFlareMinutes) fi.peakTime rfl rfl
  obtain ⟨r, st', hok, hshape⟩ := afterBracket_ok_of_some cfg orc eve fi fnext i
    { preflareIrradiance := some (freshIrr cfg orc eve fi)
      preflareWindowStart := some (fi.peakTime - cfg.thresholdTimePriorFlareMinutes)
      preflareWindowEnd := some fi.peakTime
      row := row2
      lines := st.lines } (freshIrr cfg orc eve fi) rfl
  refine ⟨r, st', ?_, ?_⟩
  · simp only [processFlare, if_neg hi, hfi, hfp, hb, ha, hfn]
    exact hok
  · rw [hshape]

theorem processFlare_last_indexError (cfg : Config) (orc : Oracles)
    (eve : EveLines) (fs : List FlareEvent) (i : ℕ) (st : LoopState)
    (fi fprev : FlareEvent)
    (hi : i ≠ 0) (hfi : fs[i]? = some fi) (hfp : fs[i - 1]? = some fprev)
    (hfn : fs[i + 1]? = none)
    (hgap : fi.peakTime - fprev.peakTime > cfg.thresholdTimePriorFlareMinutes) :
    processFlare cfg orc eve fs i st = .error .indexOutOfRange := by
  have hb := baselineStep_recompute cfg orc eve fi fprev
    { st with row := fillMetadata fi st.row } hgap
  obtain ⟨row2, ha⟩ := applyBaselineToRow_ok_ex eve
    { st with
      row := fillMetadata fi st.row
      preflareIrradiance := some (freshIrr cfg orc eve fi)
      preflareWindowStart := some (fi.peakTime - cfg.thresholdTimePriorFlareMinutes)
      preflareWindowEnd := some fi.peakTime }
    (fi.peakTime - cfg.thresholdTimePriorFlareMinutes) fi.peakTime rfl rfl
  simp only [processFlare, if_neg hi, hfi, hfp, hb, ha, hfn]

theorem processFlare_reuse_unbound (cfg : Config) (orc : Oracles)
    (eve : EveLines) (fs : List FlareEvent) (i : ℕ) (st : LoopState)
    (fi fprev : FlareEvent)
    (hi : i ≠ 0) (hfi : fs[i]? = some fi) (hfp : fs[i - 1]? = some fprev)
    (hgap : ¬ (fi.peakTime - fprev.peakTime > cfg.thresholdTimePriorFlareMinutes))
    (hstart : st.preflareWindowStart = none) :
    processFlare cfg orc eve fs i st = .error
      (if cfg.verbose then .unboundLocal "preflare_window_start"
       else .unboundLocal "logger") := by
  have hb := baselineStep_reuse cfg orc eve fi fprev
    { st with row := fillMetadata fi st.row } hgap
  by_cases hv : cfg.verbose
  · rw [if_pos hv] at hb
    have ha : applyBaselineToRow eve { st with row := fillMetadata fi st.row } =
        .error (.unboundLocal "preflare_window_start") :=
      applyBaselineToRow_unbound eve _ hstart
    simp only [processFlare, if_neg hi, hfi, hfp, hb, ha, if_pos hv]
  · rw [if_neg hv] at hb
    simp only [processFlare, if_neg hi, hfi, hfp, hb, if_neg hv]

theorem processFlare_zero (cfg : Config) (orc : Oracles) (eve : EveLines)
    (fs : List FlareEvent) (st : LoopState) :
    processFlare cfg orc eve fs 0 st = .ok st := rfl

/-! ### The loop, when every gap exceeds the independence threshold -/

theorem runLoop_all_recompute (cfg : Config) (orc : Oracles) (eve : EveLines)
    (fs : List FlareEvent)
    (hgap : ∀ j, j < fs.length → 1 ≤ j →
      gapAt fs j > cfg.thresholdTimePriorFlareMinutes) :
    ∀ (k i : ℕ) (st : LoopState), 1 ≤ i → i + k = fs.length → 1 ≤ k →
      (runLoop cfg orc eve fs (List.range' i k) st).err =
        some PipeError.indexOutOfRange ∧
      (runLoop cfg orc eve fs (List.range' i k) st).lines.map lineIdx =
        st.lines.map lineIdx ++ (List.range' i (k - 1)).map some := by
  intro k
  induction k with
  | zero => intro i st _ _ hk; omega
  | succ k ih =>
    intro i st hi hik _
    have hil : i < fs.length := by omega
    have hpl : i - 1 < fs.length := by omega
    have hfi : fs[i]? = some (fs.getD i default) := by
      rw [List.getD_eq_getElem?_getD, List.getElem?_eq_getElem hil]
      rfl
    have hfp : fs[i - 1]? = some (fs.getD (i - 1) default) := by
      rw [List.getD_eq_getElem?_getD, List.getElem?_eq_getElem hpl]
      rfl
    have hg : (fs.getD i default).peakTime - (fs.getD (i - 1) default).peakTime >
        cfg.thresholdTimePriorFlareMinutes := hgap i hil hi
    have hrange : List.range' i (k + 1) = i :: List.range' (i + 1) k :=
      List.range'_succ i k 1
    by_cases hk : k = 0
    · subst hk
      have hfn : fs[i + 1]? = none := List.getElem?_eq_none (by omega)
      have hlast := processFlare_last_indexError cfg orc eve fs i st
        (fs.getD i default) (fs.getD (i - 1) default)
        (by omega) hfi hfp hfn hg
      rw [hrange]
      simp only [runLoop, hlast]
      exact ⟨trivial, by simp⟩
    · have hi1l : i + 1 < fs.length := by omega
      have hfn : fs[i + 1]? = some (fs.getD (i + 1) default) := by
        rw [List.getD_eq_getElem?_getD, List.getElem?_eq_getElem hi1l]
        rfl
      obtain ⟨r, st', hok, hlines⟩ := processFlare_recompute_ok cfg orc eve fs i st
        (fs.getD i default) (fs.getD (i - 1) default) (fs.getD (i + 1) default)
        (by omega) hfi hfp hfn hg
      have hrec := ih (i + 1) st' (by omega) (by omega) (by omega)
      rw [hrange]
      simp only [runLoop, hok]
      refine ⟨hrec.1, ?_⟩
      rw [hrec.2, hlines]
      have hr2 : List.range' i (k + 1 - 1) = i :: List.range' (i + 1) (k - 1) := by
        have : k + 1 - 1 = (k - 1) + 1 := by omega
        rw [this, List.range'_succ]
      rw [hr2]
      simp [List.map_append, lineIdx]

/-! ### Further supporting lemmas -/

theorem baselineStep_ok_shape (cfg : Config) (orc : Oracles) (eve : EveLines)
    (fi fprev : FlareEvent) (st st2 : LoopState)
    (h : baselineStep cfg orc eve fi fprev st = .ok st2) :
    st2.row = st.row ∧ st2.lines = st.lines := by
  unfold baselineStep at h
  split at h
  · simp only [Except.ok.injEq] at h
    rw [← h]
    exact ⟨rfl, rfl⟩
  · split at h
    · simp only [Except.ok.injEq] at h
      rw [← h]
      exact ⟨rfl, rfl⟩
    · simp at h

theorem percentLines_getElem (eve : EveLines) (base : List (Option ℚ)) :
    ∀ (i : ℕ) (col : String) (s : Series) (bi : Option ℚ),
      eve[i]? = some (col, s) → base[i]? = some bi →
      (percentLines eve base)[i]? = some (col, percentSeries bi s) := by
  induction eve generalizing base with
  | nil => intro i col s bi h1 _; simp at h1
  | cons c rest ih =>
    intro i col s bi h1 h2
    cases base with
    | nil => simp at h2
    | cons b bs =>
      cases i with
      | zero =>
        simp only [List.getElem?_cons_zero, Option.some.injEq] at h1 h2
        subst h1
        subst h2
        simp [percentLines]
      | succ n =>
        simp only [List.getElem?_cons_succ] at h1 h2
        simpa [percentLines] using ih bs n col s bi h1 h2

theorem runLoop_cons_zero (cfg : Config) (orc : Oracles) (eve : EveLines)
    (fs : List FlareEvent) (l : List ℕ) (st : LoopState) :
    runLoop cfg orc eve fs (0 :: l) st = runLoop cfg orc eve fs l st := by
  simp only [runLoop, processFlare_zero]

/-! ### Claim theorems -/

/-- Claim C5 (code_bug evidence): the docstring says a negative left offset
places the left window edge *before* the peak (`left = peak + offset`), but
source line 233 computes `peak - offset`: with offset −30 and peak 1000 the
code yields 1030 (after the peak) where the documented behaviour is 970. -/
theorem C5_left_offset_sign_bug :
    bracketTimeLeft 1000 (-30) = 1030 ∧
    bracketTimeLeftSpec 1000 (-30) = 970 ∧
    bracketTimeLeft 1000 (-30) ≠ bracketTimeLeftSpec 1000 (-30) := by
  refine ⟨?_, ?_, ?_⟩ <;> norm_num [bracketTimeLeft, bracketTimeLeftSpec]

/-- Claim C9: unit normalization is computed elementwise as
`(value − baseline) / baseline × 100`; a missing value or baseline yields a
missing output; the conversion is a pure function of its two inputs. -/
theorem C9_percent_conversion (eve : EveLines) (base : List (Option ℚ))
    (i : ℕ) (col : String) (s : Series) (bi : Option ℚ)
    (h1 : eve[i]? = some (col, s)) (h2 : base[i]? = some bi) :
    (percentLines eve base)[i]? = some (col, percentSeries bi s) ∧
    (∀ (j : ℕ) (t : ℤ) (v : Option ℚ), s[j]? = some (t, v) →
      (percentSeries bi s)[j]? = some (t, percentValue v bi)) ∧
    (∀ x y : ℚ, percentValue (some x) (some y) = some ((x - y) / y * 100)) ∧
    (∀ v : Option ℚ, percentValue v none = none) ∧
    (∀ b : Option ℚ, percentValue none b = none) := by
  refine ⟨percentLines_getElem eve base i col s bi h1 h2, ?_, fun x y => rfl,
    ?_, fun b => rfl⟩
  · intro j t v hj
    simp [percentSeries, hj]
  · intro v
    cases v <;> rfl

/-- Witness for C9 at a concrete table and baseline list. -/
theorem C9_witness :
    (eveB[0]? = some ("a", [((0 : ℤ), some (2 : ℚ))]) ∧
      [some (1 : ℚ)][0]? = some (some 1)) ∧
    ((percentLines eveB [some 1])[0]? =
        some ("a", percentSeries (some 1) [((0 : ℤ), some (2 : ℚ))]) ∧
      (∀ (j : ℕ) (t : ℤ) (v : Option ℚ),
        ([((0 : ℤ), some (2 : ℚ))] : Series)[j]? = some (t, v) →
        (percentSeries (some 1) [((0 : ℤ), some (2 : ℚ))])[j]? =
          some (t, percentValue v (some 1))) ∧
      (∀ x y : ℚ, percentValue (some x) (some y) = some ((x - y) / y * 100)) ∧
      (∀ v : Option ℚ, percentValue v none = none) ∧
      (∀ b : Option ℚ, percentValue none b = none)) :=
  ⟨⟨rfl, rfl⟩, C9_percent_conversion eveB [some 1] 0 "a"
    [((0 : ℤ), some (2 : ℚ))] (some 1) rfl rfl⟩

/-- Claim C6: for any series whose depth search returns a defined
`depth_time`, the three parameterization calls happen in the fixed order
depth, slope, duration; the slope search is invoked with bounds exactly
`[peak_time, depth_time]` (and those bounds are what the row records as slope
start/end); the duration search's earliest allowed time equals the slope
search's start bound, the flare peak time. -/
theorem C6_param_bound_chaining (orc : Oracles) (peak : ℤ) (col : String)
    (s : Series) (row : JediRow) (p : Option ℚ) (d : ℤ)
    (hd : orc.determine_dimming_depth s = (p, some d)) :
    (paramColumn orc peak col s row).2 =
      [StageCall.depthCall, StageCall.slopeCall peak (some d),
        StageCall.durationCall peak] ∧
    ((paramColumn orc peak col s row).1).metric (col ++ " Slope Start Time") =
      some (peak : ℚ) ∧
    ((paramColumn orc peak col s row).1).metric (col ++ " Slope End Time") =
      some (d : ℚ) := by
  refine ⟨?_, ?_, ?_⟩
  · simp only [paramColumn, hd]
  · simp only [paramColumn, hd]
    rw [metric_set_other _ (string_append_right_ne col (by decide)) _,
      metric_set_other _ (string_append_right_ne col (by decide)) _,
      metric_set_other _ (string_append_right_ne col (by decide)) _,
      metric_set_other _ (string_append_right_ne col (by decide)) _,
      metric_set_same]
  · simp only [paramColumn, hd]
    rw [metric_set_other _ (string_append_right_ne col (by decide)) _,
      metric_set_other _ (string_append_right_ne col (by decide)) _,
      metric_set_other _ (string_append_right_ne col (by decide)) _,
      metric_set_same]
    simp

/-- Witness for C6 at a concrete column. -/
theorem C6_witness :
    oracleA.determine_dimming_depth [] = (some 5, some 1100) ∧
    ((paramColumn oracleA 1000 "17.1" [] initRow).2 =
        [StageCall.depthCall, StageCall.slopeCall 1000 (some 1100),
          StageCall.durationCall 1000] ∧
      ((paramColumn oracleA 1000 "17.1" [] initRow).1).metric
          ("17.1" ++ " Slope Start Time") = some 1000 ∧
      ((paramColumn oracleA 1000 "17.1" [] initRow).1).metric
          ("17.1" ++ " Slope End Time") = some 1100) :=
  ⟨rfl, C6_param_bound_chaining oracleA 1000 "17.1" [] initRow (some 5) 1100 rfl⟩

/-- Claim C8: a pair `(A, B)` is skipped (no result recorded, accumulator
unchanged) iff channel A's or channel B's windowed series is entirely
missing; otherwise the external correction routine's corrected series is
stored under the derived-pair label — a label distinct from both A and B —
and the time-shift and scale-factor are recorded in the pair's row columns;
and whatever a pair step does, the stage always continues with the remaining
pairs (a skip never aborts the flare). -/
theorem C8_pairwise_correction (orc : Oracles) (peak : ℤ) (a b : String)
    (sa sb : Series) (eve : EveLines) (row : JediRow)
    (ha : getCol eve a = some sa) (hb : getCol eve b = some sb) :
    ((stepPair orc peak (a, b) (eve, row)).2 = true ↔
      (allNull sa || allNull sb) = true) ∧
    ((allNull sa || allNull sb) = true →
      (stepPair orc peak (a, b) (eve, row)).1 = (eve, row)) ∧
    ((allNull sa || allNull sb) = false →
      getCol ((stepPair orc peak (a, b) (eve, row)).1).1 (pairLabel a b) =
        some (orc.light_curve_peak_match_subtract sa sb peak).1 ∧
      (((stepPair orc peak (a, b) (eve, row)).1).2).metric
          (pairLabel a b ++ " Correction Time Shift [s]") =
        (orc.light_curve_peak_match_subtract sa sb peak).2.1 ∧
      (((stepPair orc peak (a, b) (eve, row)).1).2).metric
          (pairLabel a b ++ " Correction Scale Factor") =
        (orc.light_curve_peak_match_subtract sa sb peak).2.2) ∧
    (pairLabel a b ≠ a ∧ pairLabel a b ≠ b) ∧
    (∀ (rest : List (String × String)) (acc : EveLines × JediRow),
      correctionStage orc peak ((a, b) :: rest) acc =
        correctionStage orc peak rest (stepPair orc peak (a, b) acc).1) := by
  refine ⟨?_, ?_, ?_, ⟨pairLabel_ne_left a b, pairLabel_ne_right a b⟩,
    fun rest acc => rfl⟩
  · simp only [stepPair, ha, hb, Option.getD_some]
    by_cases hn : (allNull sa || allNull sb) = true
    · rw [if_pos hn]
      simp [hn]
    · rw [if_neg hn]
      simp only [Bool.not_eq_true] at hn
      simp [hn]
  · intro hn
    simp only [stepPair, ha, hb, Option.getD_some]
    rw [if_pos hn]
  · intro hn
    simp only [stepPair, ha, hb, Option.getD_some]
    rw [if_neg (by simp [hn])]
    refine ⟨getCol_setCol_self eve (pairLabel a b) _, ?_, ?_⟩
    · rw [metric_set_other _ (string_append_right_ne (pairLabel a b) (by decide)) _,
        metric_set_same]
    · rw [metric_set_same]

/-- Witness for C8 at a concrete two-channel table with data in both
channels. -/
theorem C8_witness :
    (getCol evePair "a" = some [((0 : ℤ), some (1 : ℚ))] ∧
      getCol evePair "b" = some [((0 : ℤ), some (2 : ℚ))]) ∧
    (((stepPair oracleA 1000 ("a", "b") (evePair, initRow)).2 = true ↔
        (allNull [((0 : ℤ), some (1 : ℚ))] ||
          allNull [((0 : ℤ), some (2 : ℚ))]) = true) ∧
      ((allNull [((0 : ℤ), some (1 : ℚ))] ||
          allNull [((0 : ℤ), some (2 : ℚ))]) = true →
        (stepPair oracleA 1000 ("a", "b") (evePair, initRow)).1 =
          (evePair, initRow)) ∧
      ((allNull [((0 : ℤ), some (1 : ℚ))] ||
          allNull [((0 : ℤ), some (2 : ℚ))]) = false →
        getCol ((stepPair oracleA 1000 ("a", "b") (evePair, initRow)).1).1
            (pairLabel "a" "b") =
          some (oracleA.light_curve_peak_match_subtract
            [((0 : ℤ), some (1 : ℚ))] [((0 : ℤ), some (2 : ℚ))] 1000).1 ∧
        (((stepPair oracleA 1000 ("a", "b") (evePair, initRow)).1).2).metric
            (pairLabel "a" "b" ++ " Correction Time Shift [s]") =
          (oracleA.light_curve_peak_match_subtract
            [((0 : ℤ), some (1 : ℚ))] [((0 : ℤ), some (2 : ℚ))] 1000).2.1 ∧
        (((stepPair oracleA 1000 ("a", "b") (evePair, initRow)).1).2).metric
            (pairLabel "a" "b" ++ " Correction Scale Factor") =
          (oracleA.light_curve_peak_match_subtract
            [((0 : ℤ), some (1 : ℚ))] [((0 : ℤ), some (2 : ℚ))] 1000).2.2) ∧
      (pairLabel "a" "b" ≠ "a" ∧ pairLabel "a" "b" ≠ "b") ∧
      (∀ (rest : List (String × String)) (acc : EveLines × JediRow),
        correctionStage oracleA 1000 (("a", "b") :: rest) acc =
          correctionStage oracleA 1000 rest
            (stepPair oracleA 1000 ("a", "b") acc).1)) :=
  ⟨⟨rfl, rfl⟩, C8_pairwise_correction oracleA 1000 "a" "b"
    [((0 : ℤ), some (1 : ℚ))] [((0 : ℤ), some (2 : ℚ))] evePair initRow rfl rfl⟩

/-- Claim C3: when the gap since the previous flare's peak is at or below the
threshold, a completed iteration leaves the held-over baseline state (the
per-channel pre-flare irradiance values and the baseline window bounds)
exactly as it was — the baseline used for flare `i` is the one used for flare
`i − 1`, and the state is overwritten only in the recompute branch. -/
theorem C3_baseline_reuse (cfg : Config) (orc : Oracles) (eve : EveLines)
    (fs : List FlareEvent) (i : ℕ) (st st' : LoopState) (fi fprev : FlareEvent)
    (hi : i ≠ 0) (hfi : fs[i]? = some fi) (hfp : fs[i - 1]? = some fprev)
    (hgap : fi.peakTime - fprev.peakTime ≤ cfg.thresholdTimePriorFlareMinutes)
    (hok : processFlare cfg orc eve fs i st = .ok st') :
    st'.preflareIrradiance = st.preflareIrradiance ∧
    st'.preflareWindowStart = st.preflareWindowStart ∧
    st'.preflareWindowEnd = st.preflareWindowEnd := by
  have hng : ¬ (fi.peakTime - fprev.peakTime > cfg.thresholdTimePriorFlareMinutes) :=
    not_lt.mpr hgap
  have hb := baselineStep_reuse cfg orc eve fi fprev
    { st with row := fillMetadata fi st.row } hng
  unfold processFlare at hok
  rw [if_neg hi, hfi, hfp] at hok
  dsimp only at hok
  rw [hb] at hok
  by_cases hv : cfg.verbose
  · rw [if_pos hv] at hok
    dsimp only at hok
    cases ha : applyBaselineToRow eve { st with row := fillMetadata fi st.row } with
    | error e => rw [ha] at hok; simp at hok
    | ok st3 =>
      rw [ha] at hok
      dsimp only at hok
      obtain ⟨row2, hshape3⟩ := applyBaselineToRow_ok_shape _ _ _ ha
      cases hfn : fs[i + 1]? with
      | none => rw [hfn] at hok; simp at hok
      | some fnext =>
        rw [hfn] at hok
        dsimp only at hok
        obtain ⟨r, hshape, _⟩ := afterBracket_spec _ _ _ _ _ _ _ _ hok
        subst hshape3
        rw [hshape]
        exact ⟨rfl, rfl, rfl⟩
  · rw [if_neg hv] at hok
    simp at hok

/-- Witness for C3: a concrete completed iteration in the reuse branch. -/
theorem C3_witness :
    (fsThreeNear[1]? = some (⟨95, 100, "C2.0"⟩ : FlareEvent) ∧
      fsThreeNear[0]? = some (⟨0, 0, "C1.0"⟩ : FlareEvent) ∧
      (⟨95, 100, "C2.0"⟩ : FlareEvent).peakTime -
          (⟨0, 0, "C1.0"⟩ : FlareEvent).peakTime ≤
        cfgVerbose.thresholdTimePriorFlareMinutes ∧
      processFlare cfgVerbose oracleA eveOne fsThreeNear 1 stHeld =
        .ok (okState (processFlare cfgVerbose oracleA eveOne fsThreeNear 1 stHeld))) ∧
    ((okState (processFlare cfgVerbose oracleA eveOne fsThreeNear 1 stHeld)).preflareIrradiance =
        stHeld.preflareIrradiance ∧
      (okState (processFlare cfgVerbose oracleA eveOne fsThreeNear 1 stHeld)).preflareWindowStart =
        stHeld.preflareWindowStart ∧
      (okState (processFlare cfgVerbose oracleA eveOne fsThreeNear 1 stHeld)).preflareWindowEnd =
        stHeld.preflareWindowEnd) :=
  ⟨⟨rfl, rfl, by decide, rfl⟩,
    C3_baseline_reuse cfgVerbose oracleA eveOne fsThreeNear 1 stHeld
      (okState (processFlare cfgVerbose oracleA eveOne fsThreeNear 1 stHeld))
      ⟨95, 100, "C2.0"⟩ ⟨0, 0, "C1.0"⟩ (by decide) rfl rfl (by decide) rfl⟩

/-- Claim C4: a completed iteration for flare `i` appends exactly one data
row; the right window bound is `min(next peak, peak + right offset)`; and the
row's flare-interrupt flag is true iff that right bound equals the next
flare's peak time. -/
theorem C4_window_right_and_interrupt (cfg : Config) (orc : Oracles)
    (eve : EveLines) (fs : List FlareEvent) (i : ℕ) (st st' : LoopState)
    (fi fnext : FlareEvent)
    (hi : i ≠ 0) (hfi : fs[i]? = some fi) (hfn : fs[i + 1]? = some fnext)
    (hok : processFlare cfg orc eve fs i st = .ok st') :
    ∃ r, st'.lines = st.lines ++ [CsvLine.data i r] ∧
      bracketTimeRight fi.peakTime cfg.dimmingWindowRelativeToFlareMinutesRight
          fnext.peakTime =
        min fnext.peakTime
          (fi.peakTime + cfg.dimmingWindowRelativeToFlareMinutesRight) ∧
      (r.flareInterrupt = some true ↔
        bracketTimeRight fi.peakTime cfg.dimmingWindowRelativeToFlareMinutesRight
          fnext.peakTime = fnext.peakTime) := by
  unfold processFlare at hok
  rw [if_neg hi, hfi] at hok
  cases hfp : fs[i - 1]? with
  | none => rw [hfp] at hok; dsimp only at hok; simp at hok
  | some fprev =>
    rw [hfp] at hok
    dsimp only at hok
    cases hb : baselineStep cfg orc eve fi fprev
        { st with row := fillMetadata fi st.row } with
    | error e => rw [hb] at hok; simp at hok
    | ok st2 =>
      rw [hb] at hok
      dsimp only at hok
      cases ha : applyBaselineToRow eve st2 with
      | error e => rw [ha] at hok; simp at hok
      | ok st3 =>
        rw [ha] at hok
        dsimp only at hok
        rw [hfn] at hok
        dsimp only at hok
        obtain ⟨r, hshape, hflag⟩ := afterBracket_spec _ _ _ _ _ _ _ _ hok
        obtain ⟨hrow2, hlines2⟩ := baselineStep_ok_shape _ _ _ _ _ _ _ hb
        obtain ⟨row2, hshape3⟩ := applyBaselineToRow_ok_shape _ _ _ ha
        refine ⟨r, ?_, rfl, ?_⟩
        · rw [hshape]
          subst hshape3
          simp only [hlines2]
        · rw [hflag]
          simp

/-- Witness for C4: a concrete completed iteration (flare 1 of the near
fixture; its window is truncated by flare 2's peak? no — its right bound is
`peak + 240 = 340 < 1000`, so the interrupt flag is false, matching the
iff). -/
theorem C4_witness :
    (fsThreeNear[1]? = some (⟨95, 100, "C2.0"⟩ : FlareEvent) ∧
      fsThreeNear[2]? = some (⟨995, 1000, "M1.0"⟩ : FlareEvent) ∧
      processFlare cfgVerbose oracleA eveOne fsThreeNear 1 stHeld =
        .ok (okState (processFlare cfgVerbose oracleA eveOne fsThreeNear 1 stHeld))) ∧
    (∃ r, (okState (processFlare cfgVerbose oracleA eveOne fsThreeNear 1 stHeld)).lines =
        stHeld.lines ++ [CsvLine.data 1 r] ∧
      bracketTimeRight (⟨95, 100, "C2.0"⟩ : FlareEvent).peakTime
          cfgVerbose.dimmingWindowRelativeToFlareMinutesRight
          (⟨995, 1000, "M1.0"⟩ : FlareEvent).peakTime =
        min (⟨995, 1000, "M1.0"⟩ : FlareEvent).peakTime
          ((⟨95, 100, "C2.0"⟩ : FlareEvent).peakTime +
            cfgVerbose.dimmingWindowRelativeToFlareMinutesRight) ∧
      (r.flareInterrupt = some true ↔
        bracketTimeRight (⟨95, 100, "C2.0"⟩ : FlareEvent).peakTime
            cfgVerbose.dimmingWindowRelativeToFlareMinutesRight
            (⟨995, 1000, "M1.0"⟩ : FlareEvent).peakTime =
          (⟨995, 1000, "M1.0"⟩ : FlareEvent).peakTime)) :=
  ⟨⟨rfl, rfl, rfl⟩,
    C4_window_right_and_interrupt cfgVerbose oracleA eveOne fsThreeNear 1 stHeld
      (okState (processFlare cfgVerbose oracleA eveOne fsThreeNear 1 stHeld))
      ⟨95, 100, "C2.0"⟩ ⟨995, 1000, "M1.0"⟩ (by decide) rfl rfl rfl⟩

/-- Claim C10 counterexample: on a run whose first processed flare reuses the
baseline before any recomputation has happened, the orchestrator does *not*
"write the uninitialized (None) baseline into the row" — it aborts with an
unbound-local error on `preflare_window_start` (source line 224) before any
data row is written: the output holds the header only. -/
theorem C10_counterexample :
    generate_jedi_catalog cfgVerbose oracleA eveOne fsThreeNear =
      { lines := [CsvLine.header],
        err := some (PipeError.unboundLocal "preflare_window_start") } := rfl

/-- Claim C10 (amended): when flare 1's peak-time gap from flare 0 is at or
below the threshold, processing flare 1 from the pipeline's initial state
(no baseline ever recomputed) aborts with an unbound-local error — on
`logger` when verbose is off, on `preflare_window_start` when verbose is on —
so no row is appended; the reuse branch is safe only once a fresh
recomputation has assigned the baseline window locals. -/
theorem C10_reuse_before_recompute_aborts (cfg : Config) (orc : Oracles)
    (eve : EveLines) (fs : List FlareEvent) (f0 f1 : FlareEvent)
    (h0 : fs[0]? = some f0) (h1 : fs[1]? = some f1)
    (hgap : f1.peakTime - f0.peakTime ≤ cfg.thresholdTimePriorFlareMinutes) :
    processFlare cfg orc eve fs 1 initState =
      .error (if cfg.verbose then PipeError.unboundLocal "preflare_window_start"
              else PipeError.unboundLocal "logger") :=
  processFlare_reuse_unbound cfg orc eve fs 1 initState f1 f0 one_ne_zero h1 h0
    (not_lt.mpr hgap) rfl

/-- Witness for the amended C10 at a concrete flare list. -/
theorem C10_witness :
    (fsThreeNear[0]? = some (⟨0, 0, "C1.0"⟩ : FlareEvent) ∧
      fsThreeNear[1]? = some (⟨95, 100, "C2.0"⟩ : FlareEvent) ∧
      (⟨95, 100, "C2.0"⟩ : FlareEvent).peakTime -
          (⟨0, 0, "C1.0"⟩ : FlareEvent).peakTime ≤
        cfgQuiet.thresholdTimePriorFlareMinutes) ∧
    processFlare cfgQuiet oracleA eveOne fsThreeNear 1 initState =
      .error (if cfgQuiet.verbose then PipeError.unboundLocal "preflare_window_start"
              else PipeError.unboundLocal "logger") :=
  ⟨⟨rfl, rfl, by decide⟩,
    C10_reuse_before_recompute_aborts cfgQuiet oracleA eveOne fsThreeNear
      ⟨0, 0, "C1.0"⟩ ⟨95, 100, "C2.0"⟩ rfl rfl (by decide)⟩

/-- Claim C1 counterexample: with a 2-flare list the claim promises exactly
one data row (for flare index 1 = N−1), but the iteration for the last flare
reads `peak_time[flare_index + 1]` (source line 234) and raises IndexError
before appending anything: the catalog holds the header only. -/
theorem C1_counterexample :
    generate_jedi_catalog cfgQuiet oracleA [] fsTwo =
      { lines := [CsvLine.header], err := some PipeError.indexOutOfRange } := rfl

/-- Claim C1 (amended): when every processed flare's gap exceeds the
independence threshold (so no iteration dies in the baseline-reuse branch),
the pipeline writes the header exactly once, first; appends exactly one data
row per flare index `i` for `1 ≤ i ≤ N − 2`, in ascending index order; never
writes a data row for index 0; and the iteration for the last flare `N − 1`
always aborts with an out-of-range access to flare `N`'s peak time before its
row is appended. -/
theorem C1_one_row_per_flare (cfg : Config) (orc : Oracles) (eve : EveLines)
    (fs : List FlareEvent) (hlen : 2 ≤ fs.length)
    (hgap : ∀ j, j < fs.length → 1 ≤ j →
      gapAt fs j > cfg.thresholdTimePriorFlareMinutes) :
    (generate_jedi_catalog cfg orc eve fs).err = some PipeError.indexOutOfRange ∧
    (generate_jedi_catalog cfg orc eve fs).lines.map lineIdx =
      none :: (List.range' 1 (fs.length - 2)).map some := by
  obtain ⟨m, hm⟩ : ∃ m, fs.length = m + 2 := ⟨fs.length - 2, by omega⟩
  have h0 : List.range fs.length = 0 :: List.range' 1 (m + 1) := by
    rw [List.range_eq_range', hm]
    exact List.range'_succ 0 (m + 1) 1
  have h2 : fs.length - 2 = m := by omega
  unfold generate_jedi_catalog
  rw [h0, runLoop_cons_zero]
  have hloop := runLoop_all_recompute cfg orc eve fs hgap (m + 1) 1 initState
    le_rfl (by omega) (by omega)
  refine ⟨hloop.1, ?_⟩
  rw [hloop.2, h2]
  simp [initState, lineIdx]

/-- Witness for the amended C1 at a concrete 3-flare list with large gaps. -/
theorem C1_witness :
    (2 ≤ fsThreeFar.length ∧
      ∀ j, j < fsThreeFar.length → 1 ≤ j →
        gapAt fsThreeFar j > cfgQuiet.thresholdTimePriorFlareMinutes) ∧
    ((generate_jedi_catalog cfgQuiet oracleA [] fsThreeFar).err =
        some PipeError.indexOutOfRange ∧
      (generate_jedi_catalog cfgQuiet oracleA [] fsThreeFar).lines.map lineIdx =
        none :: (List.range' 1 (fsThreeFar.length - 2)).map some) :=
  ⟨⟨by decide, by decide⟩,
    C1_one_row_per_flare cfgQuiet oracleA [] fsThreeFar (by decide) (by decide)⟩

/-- Claim C2 (code_bug evidence): `jedi_row` is a single DataFrame reused
across iterations and its metric columns are never cleared, so when flare 2
is skipped at the window-bracketing stage its appended "null result" row
still carries flare 1's computed metrics: here the skip row for flare 2 has
a Depth value (flare 1's) instead of the NaN the claim — and the source's own
comment at line 249 ("Leave all dimming parameters as NaN") — promise.  The
flare metadata, baseline bounds and interrupt flag are populated and the loop
does continue (a third line would otherwise be impossible). -/
theorem C2_skip_row_carries_stale_metrics :
    lineIdx ((generate_jedi_catalog cfgQuiet oracleA eveOne fsFourSkip).lines.getD 2
      CsvLine.header) = some 2 ∧
    lineMetric ((generate_jedi_catalog cfgQuiet oracleA eveOne fsFourSkip).lines.getD 2
      CsvLine.header) "17.1 Depth [%]" = some 5 ∧
    lineMetric ((generate_jedi_catalog cfgQuiet oracleA eveOne fsFourSkip).lines.getD 1
      CsvLine.header) "17.1 Depth [%]" = some 5 := ⟨rfl, rfl, rfl⟩

/-- Claim C7 (code_bug evidence): two runs identical except for `verbose`
produce different catalog contents, because the baseline-reuse branch calls
`logger.info` unguarded (source line 220) while `logger` is only assigned
under `if verbose:` (line 72): with `verbose = False` the run dies with an
unbound-local error at flare 2 after two lines, while the `verbose = True`
run writes a third line. -/
theorem C7_verbose_changes_catalog :
    cfgVerbose = { cfgQuiet with verbose := true } ∧
    (generate_jedi_catalog cfgVerbose oracleA [] fsFourNear).lines.length = 3 ∧
    (generate_jedi_catalog cfgQuiet oracleA [] fsFourNear).lines.length = 2 ∧
    (generate_jedi_catalog cfgQuiet oracleA [] fsFourNear).err =
      some (PipeError.unboundLocal "logger") := ⟨rfl, rfl, rfl, rfl⟩

end JEDI
